import Mathlib

/-!
Verification development for the gym-game bot (src/main.py).

The program is a Telegram bot backed by two MongoDB collections,
`users` and `games`.  We model the store shallowly:

* a user document is a `User` record (mongo `user_id`, `display_name`,
  `points`, `streak`, `last_claim`); the python code stores `last_claim`
  as an ISO date string or `None`, compared only for equality against
  `str(today)` and `str(today - 1 day)`, so we model dates as integers
  (day numbers) and `last_claim` as `Option Int`;
* a game document is a `Game` record; `start_date` is a UTC timestamp
  used only through `(now - start_date).days`, so we model timestamps in
  whole days as `Int`;
* a collection is a `List` of documents; `find_one` is `List.find?`,
  `update_one` updates the first matching document (`updateFirst`),
  `update_many {}` maps over the whole list, `insert_one` appends,
  `delete_many {}` empties the list.

The telegram `ConversationHandler` setup dialogue (states SELECT_MODE,
SET_DURATION, CONFIRM_PENALTIES with the per-conversation
`context.user_data`) keeps one conversation per chat-and-user key, so
several users can be mid-setup at the same time; it is modelled by a
list of `Session` records (at most one per user id, the bot serving one
group chat) carried next to the two collections in `Sys`.  Randomness
(`random.choice`) and the wall clock enter each operation as explicit
parameters.
-/

namespace GymGame

/-- A document of the `users` collection (see `claim` and `join` in
src/main.py for the fields written at creation). -/
structure User where
  user_id : Nat
  display_name : String
  points : Int
  streak : Nat
  last_claim : Option Int
  deriving Repr, DecidableEq

/-- A document of the `games` collection, as inserted by
`confirm_penalties` in src/main.py.  The python document also carries a
write-only `scores : {}` field that no code ever reads or updates; it is
omitted.  `id` is mongo `_id`. -/
structure Game where
  id : String
  mode : String
  duration : String
  penalties : Bool
  team_1 : List String
  team_2 : List String
  active : Bool
  day : Nat
  start_date : Int
  deriving Repr, DecidableEq

/-- The three conversation states of the setup dialogue
(SELECT_MODE, SET_DURATION, CONFIRM_PENALTIES in src/main.py). -/
inductive SetupState where
  | selectMode
  | setDuration
  | confirmPenalties
  deriving Repr, DecidableEq

/-- The ephemeral per-conversation `context.user_data` of the setup
dialogue together with the current conversation state. -/
structure Session where
  initiator_id : Nat
  state : SetupState
  mode : Option String
  duration : Option String
  team_1 : List String
  team_2 : List String
  deriving Repr, DecidableEq

/-- The whole persistent store plus the live setup conversations, one
per initiating user (the ConversationHandler keys conversations by chat
and user, and the bot serves a single group chat). -/
structure Sys where
  users : List User
  games : List Game
  sessions : List Session
  deriving Repr, DecidableEq

/-- The reply sent back to the chat, reduced to the branch of the
handler that produced it. -/
inductive Reply where
  | ignored
  | gameAlreadyActive
  | chooseMode
  | notInitiator
  | askDuration
  | askPenalties
  | gameStartedTeam
  | gameStartedIndividual
  | alreadyClaimedToday
  | claimed (dn : String) (streak : Nat) (points : Int)
  | alreadyJoined
  | noActiveGame
  | assignedTeamA (dn : String)
  | assignedTeamB (dn : String)
  | joinedIndividual (dn : String)
  | notAuthorized
  | noActiveGameToEnd
  | gameEnded
  | noActiveGameFound
  | dayStarted (current next : Nat)
  | resetDone
  | userNotFound
  | pointsAdjusted (dn : String)
  | pointsSet (dn : String)
  | noBroadcast
  | endedByDuration
  | dailySummarySent
  deriving Repr, DecidableEq

/-- Mongo `update_one`: rewrite the first document matching the filter,
leave everything else alone. -/
def updateFirst (p : α → Bool) (f : α → α) : List α → List α
  | [] => []
  | x :: xs => if p x then f x :: xs else x :: updateFirst p f xs

/-- Mongo `users_collection.find_one({"user_id": uid})`. -/
def findUser (users : List User) (uid : Nat) : Option User :=
  users.find? (fun u => u.user_id == uid)

/-- Mongo `users_collection.find_one({"display_name": dn})`. -/
def findByName (users : List User) (dn : String) : Option User :=
  users.find? (fun u => u.display_name == dn)

/-- Mongo `games_collection.find_one({"active": True})` viewed as a
boolean test. -/
def hasActive (games : List Game) : Bool :=
  games.any (fun g => g.active)

/-- Mongo `games_collection.find_one({"active": True})`. -/
def firstActive (games : List Game) : Option Game :=
  games.find? (fun g => g.active)

/-- Number of games currently flagged active. -/
def countActive (games : List Game) : Nat :=
  (games.filter (fun g => g.active)).length

/-- The dispatcher's lookup of user `uid`'s live setup conversation
(the ConversationHandler's per-chat-and-user conversation map). -/
def findSession (sessions : List Session) (uid : Nat) : Option Session :=
  sessions.find? (fun t => t.initiator_id == uid)

/-- Store the advanced conversation record for user `uid` back into the
conversation map. -/
def putSession (s : Sys) (uid : Nat) (ss2 : Session) : Sys :=
  { s with sessions :=
      updateFirst (fun t => t.initiator_id == uid) (fun _ => ss2) s.sessions }

/-- End user `uid`'s conversation: `ConversationHandler.END` drops the
per-key conversation entry. -/
def dropSession (sessions : List Session) (uid : Nat) : List Session :=
  sessions.filter (fun t => t.initiator_id != uid)

/-- The `get_display_name` fallback chain of src/main.py (absent or
falsy telegram profile fields are modelled as `none`). -/
def get_display_name (username firstName lastName : Option String) : String :=
  match username with
  | some u => u
  | none =>
    match firstName, lastName with
    | some f, some l => f ++ " " ++ l
    | some f, none => f
    | _, _ => "Unknown User"

/-- The `$set` of `end_day`: zero the daily-claim state of a user,
leaving points and display name alone. -/
def resetDailyFields (u : User) : User :=
  { u with streak := 0, last_claim := none }

/-- The `$set` of `confirm_penalties` and `reset`: zero points, streak
and last claim. -/
def zeroUser (u : User) : User :=
  { u with points := 0, streak := 0, last_claim := none }

/-- Handler `start` (src/main.py lines 59-76): entry point of the setup
conversation for the sending user.  It only fires when that user has no
live conversation (a command inside one matches no state handler); it
rejects when a game is already active, otherwise it opens this user's
conversation — the active-game check happens only here, never again
during the dialogue. -/
def startOp (s : Sys) (uid : Nat) : Sys × Reply :=
  match findSession s.sessions uid with
  | some _ => (s, Reply.ignored)
  | none =>
    if hasActive s.games then (s, Reply.gameAlreadyActive)
    else
      ({ s with sessions := s.sessions ++ [⟨uid, SetupState.selectMode, none, none, [], []⟩] },
       Reply.chooseMode)

/-- Handler `select_mode` (lines 79-108).  Any text from the initiator
is stored as the mode; on the exact text "Team" the two team lists are
initialised and the initiator is placed by a coin flip
(`random.choice`). -/
def selectModeOp (s : Sys) (uid : Nat) (nm text : String) (coin : Bool) : Sys × Reply :=
  match findSession s.sessions uid with
  | none => (s, Reply.ignored)
  | some ss =>
    if ss.state ≠ SetupState.selectMode then (s, Reply.ignored)
    else if uid ≠ ss.initiator_id then (s, Reply.notInitiator)
    else
      let ss1 := { ss with mode := some text, state := SetupState.setDuration }
      if text = "Team" then
        if coin then
          (putSession s uid { ss1 with team_1 := [nm], team_2 := [] }, Reply.askDuration)
        else
          (putSession s uid { ss1 with team_1 := [], team_2 := [nm] }, Reply.askDuration)
      else (putSession s uid ss1, Reply.askDuration)

/-- Handler `set_duration` (lines 111-124).  Any text from the initiator
is stored verbatim as the duration. -/
def setDurationOp (s : Sys) (uid : Nat) (text : String) : Sys × Reply :=
  match findSession s.sessions uid with
  | none => (s, Reply.ignored)
  | some ss =>
    if ss.state ≠ SetupState.setDuration then (s, Reply.ignored)
    else if uid ≠ ss.initiator_id then (s, Reply.notInitiator)
    else
      let ss1 := { ss with duration := some text, state := SetupState.confirmPenalties }
      (putSession s uid ss1, Reply.askPenalties)

/-- Handler `confirm_penalties` (lines 127-168).  For any text from the
initiator it commits the game (`penalties = (text == "Yes")`, active,
day 1) and resets every existing user document; it never re-checks
whether a game is already active. -/
def confirmPenaltiesOp (s : Sys) (uid : Nat) (text gid : String) (sd : Int) : Sys × Reply :=
  match findSession s.sessions uid with
  | none => (s, Reply.ignored)
  | some ss =>
    if ss.state ≠ SetupState.confirmPenalties then (s, Reply.ignored)
    else if uid ≠ ss.initiator_id then (s, Reply.notInitiator)
    else
      match ss.mode, ss.duration with
      | some m, some d =>
        let g : Game := ⟨gid, m, d, text == "Yes", ss.team_1, ss.team_2, true, 1, sd⟩
        ({ users := s.users.map zeroUser,
           games := s.games ++ [g],
           sessions := dropSession s.sessions uid },
         if m = "Team" then Reply.gameStartedTeam else Reply.gameStartedIndividual)
      | _, _ => (s, Reply.ignored)

/-- Second half of handler `claim` (lines 199-231), run on the user
document `u` fetched (or freshly inserted) before the already-claimed
check; `users1` is the collection after the insert/display-name
refresh. -/
def claimCore (s : Sys) (uid : Nat) (users1 : List User) (u : User) (dn : String)
    (today : Int) : Sys × Reply :=
  if u.last_claim = some today then
    ({ s with users := users1 }, Reply.alreadyClaimedToday)
  else
    let streak := if u.last_claim = some (today - 1) then u.streak + 1 else 1
    let base := u.points + 1
    let new_points := if streak % 7 = 0 then base + 3 else base
    let users2 :=
      updateFirst (fun v => v.user_id == uid)
        (fun v => { v with points := new_points, streak := streak, last_claim := some today })
        users1
    ({ s with users := users2 }, Reply.claimed dn streak new_points)

/-- Handler `claim` (lines 171-231): create the user document if absent,
else refresh a changed display name; then the once-per-day check, the
streak rule and the 7-streak bonus. -/
def claimOp (s : Sys) (uid : Nat) (dn : String) (today : Int) : Sys × Reply :=
  match findUser s.users uid with
  | none =>
    let nu : User := ⟨uid, dn, 0, 0, none⟩
    claimCore s uid (s.users ++ [nu]) nu dn today
  | some u =>
    let users1 :=
      if u.display_name ≠ dn then
        updateFirst (fun v => v.user_id == uid)
          (fun v => { v with display_name := dn }) s.users
      else s.users
    claimCore s uid users1 u dn today

/-- The team-balancing decision of `join` (lines 580-594): true places
the member on team A, false on team B; the strictly smaller roster wins,
and at equal sizes the coin flip (`random.choice`) decides. -/
def pickTeam (t1 t2 : List String) (coin : Bool) : Bool :=
  if t1.length < t2.length then true
  else if t2.length < t1.length then false
  else coin

/-- Handler `join` (lines 557-613): reject a known user, require an
active game; in Team mode place the display name on the smaller roster
(coin flip when equal) and persist the rosters; finally insert the zero
user document. -/
def joinOp (s : Sys) (uid : Nat) (dn : String) (coin : Bool) : Sys × Reply :=
  match findUser s.users uid with
  | some _ => (s, Reply.alreadyJoined)
  | none =>
    match firstActive s.games with
    | none => (s, Reply.noActiveGame)
    | some g =>
      let nu : User := ⟨uid, dn, 0, 0, none⟩
      if g.mode = "Team" then
        let pick := pickTeam g.team_1 g.team_2 coin
        let t1 := cond pick (g.team_1 ++ [dn]) g.team_1
        let t2 := cond pick g.team_2 (g.team_2 ++ [dn])
        let games1 :=
          updateFirst (fun h => h.id == g.id)
            (fun h => { h with team_1 := t1, team_2 := t2 }) s.games
        ({ s with games := games1, users := s.users ++ [nu] },
         cond pick (Reply.assignedTeamA dn) (Reply.assignedTeamB dn))
      else
        ({ s with users := s.users ++ [nu] }, Reply.joinedIndividual dn)

/-- Handler `end_game` (lines 347-366): admin only; with an active game
it flags it inactive and then deletes every user and every game
document, so the net store is empty. -/
def endGameOp (s : Sys) (isAdmin : Bool) : Sys × Reply :=
  if isAdmin then
    if hasActive s.games then
      ({ s with users := [], games := [] }, Reply.gameEnded)
    else (s, Reply.noActiveGameToEnd)
  else (s, Reply.notAuthorized)

/-- The duration check of `end_day` (lines 455-465) on the incremented
day counter. -/
def durationExceeded (d : String) (nextDay : Nat) : Bool :=
  (d == "1 week" && nextDay > 7) ||
  (d == "2 weeks" && nextDay > 14) ||
  (d == "1 month" && nextDay > 30)

/-- Handler `end_day` (lines 428-468): admin only; increments the active
game's day, resets every user's streak and last claim, then either hands
over to `end_game` (threshold exceeded) or announces the new day. -/
def endDayOp (s : Sys) (isAdmin : Bool) : Sys × Reply :=
  if isAdmin then
    match firstActive s.games with
    | none => (s, Reply.noActiveGameFound)
    | some g =>
      let nextDay := g.day + 1
      let games1 :=
        updateFirst (fun h => h.id == g.id)
          (fun h => { h with day := nextDay }) s.games
      let s1 : Sys := { s with games := games1, users := s.users.map resetDailyFields }
      if durationExceeded g.duration nextDay then endGameOp s1 true
      else (s1, Reply.dayStarted g.day nextDay)
  else (s, Reply.notAuthorized)

/-- Handler `reset` (lines 369-376): admin only; zero every user
document in place. -/
def resetOp (s : Sys) (isAdmin : Bool) : Sys × Reply :=
  if isAdmin then ({ s with users := s.users.map zeroUser }, Reply.resetDone)
  else (s, Reply.notAuthorized)

/-- Handler `admin_override` (lines 304-344), the `/bot add` and
`/bot remove` branches folded into one signed increment `v`. -/
def adminAddOp (s : Sys) (isAdmin : Bool) (dn : String) (v : Int) : Sys × Reply :=
  if isAdmin then
    match findByName s.users dn with
    | none => (s, Reply.userNotFound)
    | some _ =>
      let users1 :=
        updateFirst (fun u => u.display_name == dn)
          (fun u => { u with points := u.points + v }) s.users
      ({ s with users := users1 }, Reply.pointsAdjusted dn)
  else (s, Reply.notAuthorized)

/-- Handler `set_points` (lines 397-425): admin only; set the exact
points of the first user matching the display name. -/
def setPointsOp (s : Sys) (isAdmin : Bool) (dn : String) (v : Int) : Sys × Reply :=
  if isAdmin then
    match findByName s.users dn with
    | none => (s, Reply.userNotFound)
    | some _ =>
      let users1 :=
        updateFirst (fun u => u.display_name == dn)
          (fun u => { u with points := v }) s.users
      ({ s with users := users1 }, Reply.pointsSet dn)
  else (s, Reply.notAuthorized)

/-- The wall-clock expiry check of `check_game_end` (lines 500-502) on
whole days elapsed since the start date. -/
def expiryReached (d : String) (daysPassed : Int) : Bool :=
  (d == "1 week" && daysPassed ≥ 7) ||
  (d == "2 weeks" && daysPassed ≥ 14) ||
  (d == "1 month" && daysPassed ≥ 30)

/-- The scheduler's daily job `check_game_end` (lines 489-513, wired up
through `scheduled_check_game_end` in `main`): for the active game,
when enough wall-clock days have passed it only sets `active` to false
and announces the end; otherwise it sends the daily summary.  It never
touches the day counter and never deletes anything. -/
def checkGameEndOp (s : Sys) (now : Int) : Sys × Reply :=
  match firstActive s.games with
  | none => (s, Reply.noBroadcast)
  | some g =>
    if expiryReached g.duration (now - g.start_date) then
      let games1 :=
        updateFirst (fun h => h.id == g.id)
          (fun h => { h with active := false }) s.games
      ({ s with games := games1 }, Reply.endedByDuration)
    else (s, Reply.dailySummarySent)

/-- The empty store with no live setup conversation. -/
def init : Sys := ⟨[], [], []⟩

/-- One externally triggered transition of the system: a handler firing
with arbitrary caller, text, clock and coin-flip inputs. -/
inductive Step : Sys → Sys → Prop where
  | start (s : Sys) (uid : Nat) : Step s (startOp s uid).1
  | selectMode (s : Sys) (uid : Nat) (nm text : String) (coin : Bool) :
      Step s (selectModeOp s uid nm text coin).1
  | setDuration (s : Sys) (uid : Nat) (text : String) :
      Step s (setDurationOp s uid text).1
  | confirmPenalties (s : Sys) (uid : Nat) (text gid : String) (sd : Int) :
      Step s (confirmPenaltiesOp s uid text gid sd).1
  | claim (s : Sys) (uid : Nat) (dn : String) (today : Int) :
      Step s (claimOp s uid dn today).1
  | join (s : Sys) (uid : Nat) (dn : String) (coin : Bool) :
      Step s (joinOp s uid dn coin).1
  | endDay (s : Sys) (adm : Bool) : Step s (endDayOp s adm).1
  | endGame (s : Sys) (adm : Bool) : Step s (endGameOp s adm).1
  | reset (s : Sys) (adm : Bool) : Step s (resetOp s adm).1
  | adminAdd (s : Sys) (adm : Bool) (dn : String) (v : Int) :
      Step s (adminAddOp s adm dn v).1
  | setPoints (s : Sys) (adm : Bool) (dn : String) (v : Int) :
      Step s (setPointsOp s adm dn v).1
  | checkGameEnd (s : Sys) (now : Int) : Step s (checkGameEndOp s now).1

/-- States reachable from the empty store by handler firings. -/
inductive Reachable : Sys → Prop where
  | init : Reachable init
  | step {s s' : Sys} : Reachable s → Step s s' → Reachable s'

/-- The day-count threshold the spec attaches to each recognised
duration string (7, 14, 30; other strings have none). -/
def thresholdOf : String → Option Nat
  | "1 week" => some 7
  | "2 weeks" => some 14
  | "1 month" => some 30
  | _ => none

/-- The scoring update a successful claim writes for prior document `u`
on date `today` (the `$set` of `claim`, applied to the stored record
after the display-name refresh). -/
def scoreUpdate (u : User) (today : Int) (v : User) : User :=
  { v with
    points := (if (if u.last_claim = some (today - 1) then u.streak + 1 else 1) % 7 = 0
               then u.points + 1 + 3 else u.points + 1),
    streak := (if u.last_claim = some (today - 1) then u.streak + 1 else 1),
    last_claim := some today }

/-- Points reported along a sequence of claim operations for user `uid`,
one per listed date, starting from store `s`. -/
def claimDays (s : Sys) (uid : Nat) (dn : String) : List Int → Sys × List Int
  | [] => (s, [])
  | d :: ds =>
    let r := claimOp s uid dn d
    let pts := match r.2 with
      | Reply.claimed _ _ p => [p]
      | _ => []
    let rest := claimDays r.1 uid dn ds
    (rest.1, pts ++ rest.2)

/-- The seven consecutive daily claims of the spec example, starting
from the empty store. -/
def sevenDayPoints : List Int := (claimDays init 1 "A" [0, 1, 2, 3, 4, 5, 6]).2

/-- A store in which Alice (user 1) has already claimed on day 10. -/
def c4State : Sys := ⟨[⟨1, "Alice", 5, 2, some 10⟩], [], []⟩

/-- A store holding one active one-week Individual game started on day 0
with its day counter still at 1. -/
def c8State : Sys := ⟨[], [⟨"g1", "Individual", "1 week", false, [], [], true, 1, 0⟩], []⟩

/-- A live setup conversation of user 1 sitting at ConfirmPenalties
after the free-text inputs "Individual" and "banana" were accepted
verbatim. -/
def c5State : Sys :=
  ⟨[], [], [⟨1, SetupState.confirmPenalties, some "Individual", some "banana", [], []⟩]⟩

/-- C2 trace, step 1: user 1 opens setup on the empty store. -/
def c2s1 : Sys := (startOp init 1).1

/-- Step 2: user 2 also opens setup — no game is active yet, so the
entry check passes and a second conversation goes live. -/
def c2s2 : Sys := (startOp c2s1 2).1

/-- Step 3: user 1 answers "Individual". -/
def c2s3 : Sys := (selectModeOp c2s2 1 "A" "Individual" true).1

/-- Step 4: user 1 answers "1 week". -/
def c2s4 : Sys := (setDurationOp c2s3 1 "1 week").1

/-- Step 5: user 1 answers "No" — the first game is committed active. -/
def c2s5 : Sys := (confirmPenaltiesOp c2s4 1 "No" "g1" 0).1

/-- Step 6: user 2 answers "Individual"; no handler re-checks the
active game. -/
def c2s6 : Sys := (selectModeOp c2s5 2 "B" "Individual" true).1

/-- Step 7: user 2 answers "2 weeks". -/
def c2s7 : Sys := (setDurationOp c2s6 2 "2 weeks").1

/-- Step 8: user 2 answers "No" — a second game is committed while the
first is still active. -/
def c2s8 : Sys := (confirmPenaltiesOp c2s7 2 "No" "g2" 1).1

/-- Step 1 of the C6 scenario: user 1 opens setup on the empty store. -/
def c6s1 : Sys := (startOp init 1).1

/-- Step 2: the initiator answers "Individual". -/
def c6s2 : Sys := (selectModeOp c6s1 1 "A" "Individual" true).1

/-- Step 3: the initiator answers "1 week". -/
def c6s3 : Sys := (setDurationOp c6s2 1 "1 week").1

/-- Step 4: the initiator answers "No"; the game is committed at
timestamp 0. -/
def c6s4 : Sys := (confirmPenaltiesOp c6s3 1 "No" "g1" 0).1

/-- Step 5: the scheduler's daily job fires 7 days later. -/
def c6s5 : Sys := (checkGameEndOp c6s4 7).1


/-! ### Generic lemmas about the store operations -/

theorem length_updateFirst (p : α → Bool) (f : α → α) :
    ∀ l : List α, (updateFirst p f l).length = l.length := by
  intro l
  induction l with
  | nil => rfl
  | cons x xs ih =>
    by_cases hx : p x = true <;> simp [updateFirst, hx, ih]

theorem find?_updateFirst (p : α → Bool) (f : α → α)
    (hf : ∀ x, p x = true → p (f x) = true) :
    ∀ l : List α, List.find? p (updateFirst p f l) = (List.find? p l).map f := by
  intro l
  induction l with
  | nil => rfl
  | cons x xs ih =>
    by_cases hx : p x = true
    · simp [updateFirst, hx, List.find?_cons, hf x hx]
    · have hx' : p x = false := by simpa using hx
      simp [updateFirst, hx', List.find?_cons, ih]

theorem map_updateFirst (p : α → Bool) (f : α → α) (m : α → β)
    (hm : ∀ x, m (f x) = m x) :
    ∀ l : List α, (updateFirst p f l).map m = l.map m := by
  intro l
  induction l with
  | nil => rfl
  | cons x xs ih =>
    by_cases hx : p x = true <;> simp [updateFirst, hx, hm, ih]

theorem exists_mem_updateFirst (p : α → Bool) (f : α → α) :
    ∀ (l : List α) (x : α), x ∈ l → p x = true →
      ∃ y ∈ l, p y = true ∧ f y ∈ updateFirst p f l := by
  intro l
  induction l with
  | nil => intro x hx; cases hx
  | cons a t ih =>
    intro x hx hpx
    by_cases hpa : p a = true
    · exact ⟨a, List.mem_cons_self a t, hpa, by simp [updateFirst, hpa]⟩
    · have hxt : x ∈ t := by
        rcases List.mem_cons.mp hx with h | h
        · subst h; exact absurd hpx hpa
        · exact h
      rcases ih x hxt hpx with ⟨y, hyt, hpy, hmem⟩
      refine ⟨y, List.mem_cons_of_mem _ hyt, hpy, ?_⟩
      simp only [updateFirst, hpa, if_false]
      exact List.mem_cons_of_mem _ hmem

theorem countActive_cons (g : Game) (l : List Game) :
    countActive (g :: l) = (if g.active then 1 else 0) + countActive l := by
  by_cases h : g.active <;> simp [countActive, List.filter_cons, h, Nat.add_comm]

theorem countActive_eq_zero_iff (l : List Game) :
    countActive l = 0 ↔ hasActive l = false := by
  induction l with
  | nil => simp [countActive, hasActive]
  | cons g t ih =>
    by_cases h : g.active = true
    · simp [countActive_cons, hasActive, List.any_cons, h]
    · have h' : g.active = false := by simpa using h
      simp only [countActive_cons, h', if_false, hasActive, List.any_cons,
        Bool.false_eq_true, Bool.false_or, Nat.zero_add]
      exact ih

theorem updateFirst_cons_pos (p : α → Bool) (f : α → α) (x : α) (xs : List α)
    (h : p x = true) : updateFirst p f (x :: xs) = f x :: xs := by
  simp [updateFirst, h]

theorem updateFirst_cons_neg (p : α → Bool) (f : α → α) (x : α) (xs : List α)
    (h : p x = false) : updateFirst p f (x :: xs) = x :: updateFirst p f xs := by
  simp [updateFirst, h]

theorem countActive_updateFirst_eq (p : Game → Bool) (f : Game → Game)
    (hf : ∀ g, (f g).active = g.active) :
    ∀ l : List Game, countActive (updateFirst p f l) = countActive l := by
  intro l
  induction l with
  | nil => rfl
  | cons g t ih =>
    by_cases hp : p g = true
    · rw [updateFirst_cons_pos p f g t hp, countActive_cons, countActive_cons, hf]
    · have hp' : p g = false := by simpa using hp
      rw [updateFirst_cons_neg p f g t hp', countActive_cons, countActive_cons, ih]

theorem hasActive_updateFirst (p : Game → Bool) (f : Game → Game)
    (hf : ∀ g, (f g).active = g.active) (l : List Game)
    (h : hasActive l = true) : hasActive (updateFirst p f l) = true := by
  cases hc : hasActive (updateFirst p f l) with
  | true => rfl
  | false =>
    have h0 := (countActive_eq_zero_iff _).mpr hc
    rw [countActive_updateFirst_eq p f hf] at h0
    rw [(countActive_eq_zero_iff l).mp h0] at h
    cases h

theorem hasActive_of_firstActive {l : List Game} {g : Game}
    (h : firstActive l = some g) : hasActive l = true := by
  have hmem := List.mem_of_find?_eq_some h
  have hact := List.find?_some h
  exact List.any_eq_true.mpr ⟨g, hmem, hact⟩

/-! ### Claim C2: single active game -/

/-- C2: the single-active-game invariant fails in the source.  The
entry check of `start` does reject while a game is active, but it is
the only check: `confirm_penalties` commits unconditionally, and the
dispatcher keeps one setup conversation per user, so two users who both
pass the entry check before either commits end up producing two games
that are simultaneously active.  This theorem replays that eight-step
trace from the empty store: after it, two game documents carry
active = true. -/
theorem C2_two_active_games :
    Reachable c2s8 ∧
    hasActive c2s5.games = true ∧
    c2s8.games.map (fun g => (g.id, g.active)) = [("g1", true), ("g2", true)] ∧
    countActive c2s8.games = 2 := by
  constructor
  · exact Reachable.step (Reachable.step (Reachable.step (Reachable.step (Reachable.step
      (Reachable.step (Reachable.step (Reachable.step Reachable.init
      (Step.start init 1))
      (Step.start c2s1 2))
      (Step.selectMode c2s2 1 "A" "Individual" true))
      (Step.setDuration c2s3 1 "1 week"))
      (Step.confirmPenalties c2s4 1 "No" "g1" 0))
      (Step.selectMode c2s5 2 "B" "Individual" true))
      (Step.setDuration c2s6 2 "2 weeks"))
      (Step.confirmPenalties c2s7 2 "No" "g2" 1)
  · exact ⟨rfl, rfl, rfl⟩

/-! ### The claim operation: scoring and streaks -/

theorem find?_append_none (p : α → Bool) (l1 l2 : List α)
    (h : l1.find? p = none) : (l1 ++ l2).find? p = l2.find? p := by
  induction l1 with
  | nil => simp
  | cons x t ih =>
    have hall := List.find?_eq_none.mp h
    have hx : ¬p x = true := hall x (List.mem_cons_self x t)
    rw [List.cons_append, List.find?_cons_of_neg _ hx]
    exact ih (List.find?_eq_none.mpr fun y hy => hall y (List.mem_cons_of_mem x hy))

/-- A find-after-update law specialised to the user collection: if a
document for `uid` is found, then after updating that document with any
`user_id`-preserving function the lookup returns the updated document. -/
theorem findUser_after_update (uid : Nat) (f : User → User)
    (hf : ∀ x, (f x).user_id = x.user_id) (l : List User) (u : User)
    (hu2 : List.find? (fun v => v.user_id == uid) l = some u) :
    List.find? (fun v => v.user_id == uid)
        (updateFirst (fun v => v.user_id == uid) f l) = some (f u) := by
  have hp : ∀ x : User, (fun v : User => v.user_id == uid) x = true →
      (fun v : User => v.user_id == uid) (f x) = true := by
    intro x hx
    simp only [hf]
    exact hx
  rw [find?_updateFirst _ f hp l, hu2]
  rfl

/-- The net effect of a successful claim on the claiming user's stored
document: display name refreshed, then the scoring update applied. -/
theorem claimOp_found (s : Sys) (uid : Nat) (dn : String) (today : Int) (u : User)
    (hu : findUser s.users uid = some u) (hne : ¬u.last_claim = some today) :
    findUser (claimOp s uid dn today).1.users uid =
      some (scoreUpdate u today { u with display_name := dn }) := by
  have hu' : List.find? (fun v : User => v.user_id == uid) s.users = some u := hu
  unfold claimOp
  rw [hu]
  dsimp only
  by_cases hdn : u.display_name ≠ dn
  · rw [if_pos hdn]
    unfold claimCore
    rw [if_neg hne]
    dsimp only
    unfold findUser
    exact findUser_after_update uid (scoreUpdate u today) (fun x => rfl) _ _
      (findUser_after_update uid (fun v => { v with display_name := dn }) (fun x => rfl)
        s.users u hu')
  · rw [if_neg hdn]
    unfold claimCore
    rw [if_neg hne]
    dsimp only
    unfold findUser
    have hdn' : u.display_name = dn := not_not.mp hdn
    rw [← hdn']
    exact findUser_after_update uid (scoreUpdate u today) (fun x => rfl) s.users u hu'

/-- C1: for any stored user who has not yet claimed today, claiming sets
the new streak to prior + 1 exactly when the last claim was yesterday
and to 1 otherwise, and the new points to prior + 1 with an extra +3
exactly when the new streak is a multiple of 7; seven consecutive daily
claims from the empty store report the points 1,2,3,4,5,6,10. -/
theorem C1_claim_scoring :
    (∀ (s : Sys) (uid : Nat) (dn : String) (today : Int) (u : User),
      findUser s.users uid = some u →
      ¬u.last_claim = some today →
      ∃ u', findUser (claimOp s uid dn today).1.users uid = some u' ∧
        u'.streak = (if u.last_claim = some (today - 1) then u.streak + 1 else 1) ∧
        u'.points = u.points + 1 + (if 7 ∣ u'.streak then 3 else 0) ∧
        u'.last_claim = some today) ∧
    sevenDayPoints = [1, 2, 3, 4, 5, 6, 10] := by
  constructor
  · intro s uid dn today u hu hne
    refine ⟨_, claimOp_found s uid dn today u hu hne, rfl, ?_, rfl⟩
    simp only [scoreUpdate]
    by_cases hmod : (if u.last_claim = some (today - 1) then u.streak + 1 else 1) % 7 = 0
    · rw [if_pos hmod, if_pos (Nat.dvd_iff_mod_eq_zero.mpr hmod)]
    · rw [if_neg hmod, if_neg (fun hdvd => hmod (Nat.dvd_iff_mod_eq_zero.mp hdvd))]
      omega
  · rfl

/-- Witness for C1 at a concrete input: a user with streak 2 who last
claimed yesterday. -/
theorem C1_claim_scoring_witness :
    ∃ u', findUser (claimOp ⟨[⟨1, "A", 3, 2, some 9⟩], [], []⟩ 1 "A" 10).1.users 1 =
        some u' ∧
      u'.streak = (if (some (9 : Int)) = some (10 - 1) then 2 + 1 else 1) ∧
      u'.points = 3 + 1 + (if 7 ∣ u'.streak then 3 else 0) ∧
      u'.last_claim = some 10 :=
  C1_claim_scoring.1 ⟨[⟨1, "A", 3, 2, some 9⟩], [], []⟩ 1 "A" 10 ⟨1, "A", 3, 2, some 9⟩
    rfl (by decide)

/-! ### Claim C4: the already-claimed path -/

/-- C4 counterexample: a claim on an already-claimed day is rejected,
yet the stored display name is rewritten from "Alice" to "Bob", so the
claim that every stored user field (display name included) is unchanged
is false. -/
theorem C4_counterexample :
    (claimOp c4State 1 "Bob" 10).2 = Reply.alreadyClaimedToday ∧
    (claimOp c4State 1 "Bob" 10).1.users.map (fun u => u.display_name) = ["Bob"] ∧
    c4State.users.map (fun u => u.display_name) = ["Alice"] :=
  ⟨rfl, rfl, rfl⟩

/-- C4 amended: when the user already claimed today the operation fails
with the already-claimed reply and leaves games, session and every
user's points, streak and last claim unchanged, but it does refresh the
claiming user's stored display name to the current one. -/
theorem C4_already_claimed :
    ∀ (s : Sys) (uid : Nat) (dn : String) (today : Int) (u : User),
      findUser s.users uid = some u →
      u.last_claim = some today →
      (claimOp s uid dn today).2 = Reply.alreadyClaimedToday ∧
      (claimOp s uid dn today).1.games = s.games ∧
      (claimOp s uid dn today).1.sessions = s.sessions ∧
      findUser (claimOp s uid dn today).1.users uid = some { u with display_name := dn } ∧
      (claimOp s uid dn today).1.users.map (fun v => (v.points, v.streak, v.last_claim)) =
        s.users.map (fun v => (v.points, v.streak, v.last_claim)) := by
  intro s uid dn today u hu hc
  have hu' : List.find? (fun v : User => v.user_id == uid) s.users = some u := hu
  unfold claimOp
  rw [hu]
  dsimp only
  by_cases hdn : u.display_name ≠ dn
  · rw [if_pos hdn]
    unfold claimCore
    rw [if_pos hc]
    refine ⟨rfl, rfl, rfl, ?_, ?_⟩
    · exact findUser_after_update uid (fun v => { v with display_name := dn })
        (fun x => rfl) s.users u hu'
    · exact map_updateFirst (fun v : User => v.user_id == uid)
        (fun v => { v with display_name := dn })
        (fun v => (v.points, v.streak, v.last_claim)) (fun x => rfl) s.users
  · rw [if_neg hdn]
    unfold claimCore
    rw [if_pos hc]
    have hdn' : u.display_name = dn := not_not.mp hdn
    refine ⟨rfl, rfl, rfl, ?_, rfl⟩
    rw [← hdn']
    exact hu

/-- Witness for the amended C4 at the concrete Alice/Bob store. -/
theorem C4_already_claimed_witness :
    (claimOp c4State 1 "Bob" 10).2 = Reply.alreadyClaimedToday ∧
    (claimOp c4State 1 "Bob" 10).1.games = c4State.games ∧
    (claimOp c4State 1 "Bob" 10).1.sessions = c4State.sessions ∧
    findUser (claimOp c4State 1 "Bob" 10).1.users 1 =
      some { (⟨1, "Alice", 5, 2, some 10⟩ : User) with display_name := "Bob" } ∧
    (claimOp c4State 1 "Bob" 10).1.users.map (fun v => (v.points, v.streak, v.last_claim)) =
      c4State.users.map (fun v => (v.points, v.streak, v.last_claim)) :=
  C4_already_claimed c4State 1 "Bob" 10 ⟨1, "Alice", 5, 2, some 10⟩ rfl rfl

/-! ### Claim C10: claims do not need a game -/

/-- C10: the claim handler never consults the games collection: in a
store with no active game (in particular none at all), a first-time
claim creates the user document and awards the normal first-day point
and streak, leaving the games collection untouched. -/
theorem C10_claim_without_game :
    ∀ (s : Sys) (uid : Nat) (dn : String) (today : Int),
      hasActive s.games = false →
      findUser s.users uid = none →
      (claimOp s uid dn today).1.games = s.games ∧
      findUser (claimOp s uid dn today).1.users uid = some ⟨uid, dn, 1, 1, some today⟩ ∧
      (claimOp s uid dn today).2 = Reply.claimed dn 1 1 := by
  intro s uid dn today hg hu
  have hu' : List.find? (fun v : User => v.user_id == uid) s.users = none := hu
  have happ : List.find? (fun v : User => v.user_id == uid)
      (s.users ++ [⟨uid, dn, 0, 0, none⟩]) = some ⟨uid, dn, 0, 0, none⟩ := by
    rw [find?_append_none _ _ _ hu']
    exact List.find?_cons_of_pos _ (by simp)
  have hnc : ¬((⟨uid, dn, 0, 0, none⟩ : User).last_claim = some today) :=
    fun h => Option.noConfusion h
  unfold claimOp
  rw [hu]
  dsimp only
  unfold claimCore
  rw [if_neg hnc]
  refine ⟨rfl, ?_, rfl⟩
  unfold findUser
  exact findUser_after_update uid (scoreUpdate ⟨uid, dn, 0, 0, none⟩ today)
    (fun x => rfl) _ _ happ

/-- Witness for C10: a first claim on the empty store. -/
theorem C10_claim_without_game_witness :
    (claimOp init 7 "Zoe" 3).1.games = (init : Sys).games ∧
    findUser (claimOp init 7 "Zoe" 3).1.users 7 = some ⟨7, "Zoe", 1, 1, some 3⟩ ∧
    (claimOp init 7 "Zoe" 3).2 = Reply.claimed "Zoe" 1 1 :=
  C10_claim_without_game init 7 "Zoe" 3 rfl rfl

/-! ### End-day and end-game transitions -/

theorem durationExceeded_of_threshold (d : String) (N n : Nat)
    (ht : thresholdOf d = some N) (h : n > N) :
    durationExceeded d n = true := by
  by_cases h1 : d = "1 week"
  · subst h1
    have hN : N = 7 := by
      have : (some 7 : Option Nat) = some N := ht
      exact (Option.some.inj this).symm
    subst hN
    unfold durationExceeded
    simp [h]
  · by_cases h2 : d = "2 weeks"
    · subst h2
      have hN : N = 14 := by
        have : (some 14 : Option Nat) = some N := ht
        exact (Option.some.inj this).symm
      subst hN
      unfold durationExceeded
      simp [h]
    · by_cases h3 : d = "1 month"
      · subst h3
        have hN : N = 30 := by
          have : (some 30 : Option Nat) = some N := ht
          exact (Option.some.inj this).symm
        subst hN
        unfold durationExceeded
        simp [h]
      · exfalso
        unfold thresholdOf at ht
        split at ht <;> simp_all

/-- Shared law for the end-of-game path of the end-day handler: when
the incremented day counter strictly exceeds the recognised duration
threshold, the whole store is wiped and the end-game reply is sent. -/
theorem endDay_past_threshold (s : Sys) (g : Game) (N : Nat)
    (hg : firstActive s.games = some g)
    (ht : thresholdOf g.duration = some N)
    (hd : g.day + 1 > N) :
    endDayOp s true = (⟨[], [], s.sessions⟩, Reply.gameEnded) := by
  have hx : durationExceeded g.duration (g.day + 1) = true :=
    durationExceeded_of_threshold g.duration N (g.day + 1) ht hd
  have hA : hasActive (updateFirst (fun h2 => h2.id == g.id)
      (fun h2 => { h2 with day := g.day + 1 }) s.games) = true :=
    hasActive_updateFirst (fun h2 => h2.id == g.id)
      (fun h2 => { h2 with day := g.day + 1 }) (fun x => rfl) s.games
      (hasActive_of_firstActive hg)
  unfold endDayOp
  rw [hg]
  dsimp only
  rw [hx]
  unfold endGameOp
  dsimp only
  rw [hA]
  rfl

/-- C3: with an active game whose recognised duration threshold is N,
an admin end-day on day counter that increments past N ends the game
instead of announcing the new day, and afterwards no game and no user
document remains. -/
theorem C3_endday_triggers_endgame :
    ∀ (s : Sys) (g : Game) (N : Nat),
      firstActive s.games = some g →
      thresholdOf g.duration = some N →
      g.day + 1 > N →
      (endDayOp s true).2 = Reply.gameEnded ∧
      (endDayOp s true).1.users = [] ∧
      (endDayOp s true).1.games = [] := by
  intro s g N h1 h2 h3
  rw [endDay_past_threshold s g N h1 h2 h3]
  exact ⟨rfl, rfl, rfl⟩

/-- Witness for C3: end-day on day 7 of a one-week game. -/
theorem C3_endday_triggers_endgame_witness :
    (endDayOp ⟨[⟨1, "A", 3, 1, some 5⟩],
        [⟨"g1", "Individual", "1 week", false, [], [], true, 7, 0⟩], []⟩ true).2 =
      Reply.gameEnded ∧
    (endDayOp ⟨[⟨1, "A", 3, 1, some 5⟩],
        [⟨"g1", "Individual", "1 week", false, [], [], true, 7, 0⟩], []⟩ true).1.users = [] ∧
    (endDayOp ⟨[⟨1, "A", 3, 1, some 5⟩],
        [⟨"g1", "Individual", "1 week", false, [], [], true, 7, 0⟩], []⟩ true).1.games = [] :=
  C3_endday_triggers_endgame
    ⟨[⟨1, "A", 3, 1, some 5⟩], [⟨"g1", "Individual", "1 week", false, [], [], true, 7, 0⟩], []⟩
    ⟨"g1", "Individual", "1 week", false, [], [], true, 7, 0⟩ 7 rfl rfl (by decide)

theorem firstActive_updateFirst_id (f : Game → Game)
    (hact : ∀ x, (f x).active = x.active) :
    ∀ (l : List Game) (g : Game),
      (l.map Game.id).Nodup →
      firstActive l = some g →
      firstActive (updateFirst (fun h => h.id == g.id) f l) = some (f g) := by
  intro l
  induction l with
  | nil => intro g _ hfa; exact Option.noConfusion hfa
  | cons x t ih =>
    intro g hnd hfa
    by_cases hx : x.active = true
    · have hg : x = g := by
        unfold firstActive at hfa
        rw [List.find?_cons_of_pos _ hx] at hfa
        exact Option.some.inj hfa
      subst hg
      rw [updateFirst_cons_pos _ _ _ _ (by simp)]
      unfold firstActive
      rw [List.find?_cons_of_pos _ (by rw [hact]; exact hx)]
    · unfold firstActive at hfa ⊢
      rw [List.find?_cons_of_neg _ hx] at hfa
      have hgt : g ∈ t := List.mem_of_find?_eq_some hfa
      rw [List.map_cons, List.nodup_cons] at hnd
      have hne : ¬(x.id = g.id) := by
        intro he
        exact hnd.1 (he ▸ List.mem_map_of_mem Game.id hgt)
      rw [updateFirst_cons_neg _ _ _ _ (by simp [hne])]
      rw [List.find?_cons_of_neg _ hx]
      have hrec := ih g hnd.2 hfa
      unfold firstActive at hrec
      exact hrec

/-- C7: when the incremented day does not cross the threshold, the
end-day handler announces the new day, bumps only the active game's day
counter, and rewrites every user document with the daily reset, which
zeroes streak and last claim while preserving points and display
name. -/
theorem C7_endday_frame :
    ∀ (s : Sys) (g : Game),
      (s.games.map Game.id).Nodup →
      firstActive s.games = some g →
      durationExceeded g.duration (g.day + 1) = false →
      (endDayOp s true).1.users = s.users.map resetDailyFields ∧
      (∀ u : User, (resetDailyFields u).points = u.points ∧
        (resetDailyFields u).display_name = u.display_name ∧
        (resetDailyFields u).streak = 0 ∧ (resetDailyFields u).last_claim = none) ∧
      firstActive (endDayOp s true).1.games = some { g with day := g.day + 1 } ∧
      (endDayOp s true).2 = Reply.dayStarted g.day (g.day + 1) := by
  intro s g hnd hg hdx
  have hfa := firstActive_updateFirst_id (fun h2 => { h2 with day := g.day + 1 })
    (fun x => rfl) s.games g hnd hg
  unfold endDayOp
  rw [hg]
  dsimp only
  rw [hdx]
  exact ⟨rfl, fun u => ⟨rfl, rfl, rfl, rfl⟩, hfa, rfl⟩

/-- Witness for C7: end-day on day 2 of a one-week game with one user
holding points and a streak. -/
theorem C7_endday_frame_witness :
    (endDayOp ⟨[⟨1, "A", 3, 2, some 5⟩],
        [⟨"g1", "Individual", "1 week", false, [], [], true, 2, 0⟩], []⟩ true).1.users =
      [⟨1, "A", 3, 2, some 5⟩].map resetDailyFields ∧
    (∀ u : User, (resetDailyFields u).points = u.points ∧
      (resetDailyFields u).display_name = u.display_name ∧
      (resetDailyFields u).streak = 0 ∧ (resetDailyFields u).last_claim = none) ∧
    firstActive (endDayOp ⟨[⟨1, "A", 3, 2, some 5⟩],
        [⟨"g1", "Individual", "1 week", false, [], [], true, 2, 0⟩], []⟩ true).1.games =
      some { (⟨"g1", "Individual", "1 week", false, [], [], true, 2, 0⟩ : Game) with
        day := 2 + 1 } ∧
    (endDayOp ⟨[⟨1, "A", 3, 2, some 5⟩],
        [⟨"g1", "Individual", "1 week", false, [], [], true, 2, 0⟩], []⟩ true).2 =
      Reply.dayStarted 2 (2 + 1) :=
  C7_endday_frame
    ⟨[⟨1, "A", 3, 2, some 5⟩], [⟨"g1", "Individual", "1 week", false, [], [], true, 2, 0⟩], []⟩
    ⟨"g1", "Individual", "1 week", false, [], [], true, 2, 0⟩
    (by decide) rfl rfl

/-! ### Claim C5: setup input validation -/

theorem findSession_replace (uid : Nat) (ssNew : Session)
    (hid : ssNew.initiator_id = uid) (l : List Session) (ss : Session)
    (h : findSession l uid = some ss) :
    findSession (updateFirst (fun t => t.initiator_id == uid) (fun _ => ssNew) l) uid =
      some ssNew := by
  have hp : ∀ x : Session, (fun t : Session => t.initiator_id == uid) x = true →
      (fun t : Session => t.initiator_id == uid) ssNew = true := by
    intro x hx
    simp [hid]
  unfold findSession at h ⊢
  rw [find?_updateFirst _ (fun _ => ssNew) hp l, h]
  rfl

theorem findSession_dropSession (l : List Session) (uid : Nat) :
    findSession (dropSession l uid) uid = none := by
  unfold findSession dropSession
  apply List.find?_eq_none.mpr
  intro x hx
  have h2 := (List.mem_filter.mp hx).2
  simp only [bne_iff_ne, ne_eq] at h2
  simp only [beq_iff_eq]
  exact h2

/-- C5 counterexample: at ConfirmPenalties the unrecognised input
"Maybe" does not re-prompt in the same state: it commits a game — whose
duration is the unrecognised string "banana" stored by the previous
state — with penalties read as No, and ends the conversation. -/
theorem C5_counterexample :
    (confirmPenaltiesOp c5State 1 "Maybe" "g1" 0).1.games.map
        (fun g => (g.mode, g.duration, g.penalties)) = [("Individual", "banana", false)] ∧
    (confirmPenaltiesOp c5State 1 "Maybe" "g1" 0).1.sessions = [] ∧
    (confirmPenaltiesOp c5State 1 "Maybe" "g1" 0).2 = Reply.gameStartedIndividual :=
  ⟨rfl, rfl, rfl⟩

/-- C5 amended: the setup states do not validate input.  SelectMode and
SetDuration store any initiator text verbatim and advance to the next
state (mutating no persisted data), and ConfirmPenalties commits a game
for any initiator text, reading penalties as (text = "Yes") and copying
the stored mode and duration strings unchecked; only a non-initiator is
re-prompted in place. -/
theorem C5_setup_accepts_any_input :
    (∀ (s : Sys) (ss : Session) (uid : Nat) (nm text : String) (coin : Bool),
      findSession s.sessions uid = some ss → ss.state = SetupState.selectMode →
      uid = ss.initiator_id →
      (selectModeOp s uid nm text coin).1.users = s.users ∧
      (selectModeOp s uid nm text coin).1.games = s.games ∧
      ∃ ss2, findSession (selectModeOp s uid nm text coin).1.sessions uid = some ss2 ∧
        ss2.state = SetupState.setDuration ∧ ss2.mode = some text) ∧
    (∀ (s : Sys) (ss : Session) (uid : Nat) (text : String),
      findSession s.sessions uid = some ss → ss.state = SetupState.setDuration →
      uid = ss.initiator_id →
      (setDurationOp s uid text).1.users = s.users ∧
      (setDurationOp s uid text).1.games = s.games ∧
      ∃ ss2, findSession (setDurationOp s uid text).1.sessions uid = some ss2 ∧
        ss2.state = SetupState.confirmPenalties ∧ ss2.duration = some text) ∧
    (∀ (s : Sys) (ss : Session) (uid : Nat) (text gid : String) (sd : Int) (m d : String),
      findSession s.sessions uid = some ss → ss.state = SetupState.confirmPenalties →
      uid = ss.initiator_id → ss.mode = some m → ss.duration = some d →
      (confirmPenaltiesOp s uid text gid sd).1.games =
        s.games ++ [⟨gid, m, d, text == "Yes", ss.team_1, ss.team_2, true, 1, sd⟩] ∧
      (confirmPenaltiesOp s uid text gid sd).1.users = s.users.map zeroUser ∧
      findSession (confirmPenaltiesOp s uid text gid sd).1.sessions uid = none) := by
  refine ⟨?_, ?_, ?_⟩
  · intro s ss uid nm text coin hs hst huid
    unfold selectModeOp
    rw [hs]
    dsimp only
    rw [if_neg (by simp [hst]), if_neg (by simp [huid])]
    by_cases ht : text = "Team"
    · rw [if_pos ht]
      by_cases hc : coin = true
      · rw [if_pos hc]
        have hrep := findSession_replace uid
          { ss with mode := some text, state := SetupState.setDuration, team_1 := [nm], team_2 := [] }
          huid.symm s.sessions ss hs
        exact ⟨rfl, rfl, ⟨_, hrep, rfl, rfl⟩⟩
      · rw [if_neg hc]
        have hrep := findSession_replace uid
          { ss with mode := some text, state := SetupState.setDuration, team_1 := [], team_2 := [nm] }
          huid.symm s.sessions ss hs
        exact ⟨rfl, rfl, ⟨_, hrep, rfl, rfl⟩⟩
    · rw [if_neg ht]
      have hrep := findSession_replace uid
        { ss with mode := some text, state := SetupState.setDuration }
        huid.symm s.sessions ss hs
      exact ⟨rfl, rfl, ⟨_, hrep, rfl, rfl⟩⟩
  · intro s ss uid text hs hst huid
    unfold setDurationOp
    rw [hs]
    dsimp only
    rw [if_neg (by simp [hst]), if_neg (by simp [huid])]
    have hrep := findSession_replace uid
      { ss with duration := some text, state := SetupState.confirmPenalties }
      huid.symm s.sessions ss hs
    exact ⟨rfl, rfl, ⟨_, hrep, rfl, rfl⟩⟩
  · intro s ss uid text gid sd m d hs hst huid hm hd
    unfold confirmPenaltiesOp
    rw [hs]
    dsimp only
    rw [if_neg (by simp [hst]), if_neg (by simp [huid]), hm, hd]
    exact ⟨rfl, rfl, findSession_dropSession s.sessions uid⟩

/-- Witness for the amended C5 at concrete stores: nonsense inputs at
all three states. -/
theorem C5_setup_accepts_any_input_witness :
    ((selectModeOp ⟨[], [], [⟨1, SetupState.selectMode, none, none, [], []⟩]⟩
        1 "A" "Nonsense" true).1.users = [] ∧
      (selectModeOp ⟨[], [], [⟨1, SetupState.selectMode, none, none, [], []⟩]⟩
        1 "A" "Nonsense" true).1.games = [] ∧
      ∃ ss2, findSession (selectModeOp ⟨[], [], [⟨1, SetupState.selectMode, none, none, [], []⟩]⟩
          1 "A" "Nonsense" true).1.sessions 1 = some ss2 ∧
        ss2.state = SetupState.setDuration ∧ ss2.mode = some "Nonsense") ∧
    ((setDurationOp ⟨[], [], [⟨1, SetupState.setDuration, some "Nonsense", none, [], []⟩]⟩
        1 "banana").1.users = [] ∧
      (setDurationOp ⟨[], [], [⟨1, SetupState.setDuration, some "Nonsense", none, [], []⟩]⟩
        1 "banana").1.games = [] ∧
      ∃ ss2, findSession (setDurationOp ⟨[], [], [⟨1, SetupState.setDuration, some "Nonsense", none, [], []⟩]⟩
          1 "banana").1.sessions 1 = some ss2 ∧
        ss2.state = SetupState.confirmPenalties ∧ ss2.duration = some "banana") ∧
    ((confirmPenaltiesOp c5State 1 "Maybe" "g1" 0).1.games =
        c5State.games ++ [⟨"g1", "Individual", "banana", "Maybe" == "Yes",
          [], [], true, 1, 0⟩] ∧
      (confirmPenaltiesOp c5State 1 "Maybe" "g1" 0).1.users = c5State.users.map zeroUser ∧
      findSession (confirmPenaltiesOp c5State 1 "Maybe" "g1" 0).1.sessions 1 = none) :=
  ⟨C5_setup_accepts_any_input.1 ⟨[], [], [⟨1, SetupState.selectMode, none, none, [], []⟩]⟩
      ⟨1, SetupState.selectMode, none, none, [], []⟩ 1 "A" "Nonsense" true rfl rfl rfl,
   C5_setup_accepts_any_input.2.1 ⟨[], [], [⟨1, SetupState.setDuration, some "Nonsense", none, [], []⟩]⟩
      ⟨1, SetupState.setDuration, some "Nonsense", none, [], []⟩ 1 "banana" rfl rfl rfl,
   C5_setup_accepts_any_input.2.2 c5State
      ⟨1, SetupState.confirmPenalties, some "Individual", some "banana", [], []⟩
      1 "Maybe" "g1" 0 "Individual" "banana" rfl rfl rfl rfl rfl⟩

/-! ### Claim C6: no observable Ended state -/

/-- C6 counterexample: a store reachable from the empty store — setup
dialogue, game commit, then the scheduler's expiry firing 7 days later —
that still holds a game document flagged inactive, so an Ended game is
observable in storage. -/
theorem C6_counterexample :
    Reachable c6s5 ∧ ∃ g ∈ c6s5.games, g.active = false := by
  constructor
  · exact Reachable.step (Reachable.step (Reachable.step (Reachable.step
      (Reachable.step Reachable.init (Step.start init 1))
      (Step.selectMode c6s1 1 "A" "Individual" true))
      (Step.setDuration c6s2 1 "1 week"))
      (Step.confirmPenalties c6s3 1 "No" "g1" 0))
      (Step.checkGameEnd c6s4 7)
  · exact ⟨⟨"g1", "Individual", "1 week", false, [], [], false, 1, 0⟩, by decide, rfl⟩

/-- C6 amended: the explicit end-game command and the end-day threshold
path wipe every game and user document in the same transition, but the
scheduler's expiry check only clears the active flag: it deletes
nothing, leaving the deactivated game document and all user documents in
storage. -/
theorem C6_end_wipe_except_scheduler :
    (∀ s : Sys, hasActive s.games = true →
      (endGameOp s true).1.users = [] ∧ (endGameOp s true).1.games = []) ∧
    (∀ (s : Sys) (g : Game) (N : Nat),
      firstActive s.games = some g → thresholdOf g.duration = some N → g.day + 1 > N →
      (endDayOp s true).1.users = [] ∧ (endDayOp s true).1.games = []) ∧
    (∀ (s : Sys) (g : Game) (now : Int),
      firstActive s.games = some g →
      expiryReached g.duration (now - g.start_date) = true →
      (checkGameEndOp s now).1.users = s.users ∧
      (checkGameEndOp s now).1.games.length = s.games.length ∧
      ∃ g2 ∈ (checkGameEndOp s now).1.games, g2.active = false ∧ g2.id = g.id) := by
  refine ⟨?_, ?_, ?_⟩
  · intro s h
    unfold endGameOp
    rw [h]
    exact ⟨rfl, rfl⟩
  · intro s g N h1 h2 h3
    rw [endDay_past_threshold s g N h1 h2 h3]
    exact ⟨rfl, rfl⟩
  · intro s g now hg hex
    unfold checkGameEndOp
    rw [hg]
    dsimp only
    rw [hex]
    obtain ⟨y, hyl, hpy, hmem⟩ := exists_mem_updateFirst (fun h2 => h2.id == g.id)
      (fun h2 => { h2 with active := false }) s.games g (List.mem_of_find?_eq_some hg)
      (by simp)
    refine ⟨rfl, length_updateFirst _ _ _, ?_⟩
    exact ⟨{ y with active := false }, hmem, rfl, by simpa using hpy⟩

/-- Witness for the amended C6 at concrete stores. -/
theorem C6_end_wipe_except_scheduler_witness :
    ((endGameOp c8State true).1.users = [] ∧ (endGameOp c8State true).1.games = []) ∧
    ((endDayOp ⟨[⟨1, "A", 3, 1, some 5⟩],
        [⟨"g2", "Individual", "1 week", false, [], [], true, 8, 0⟩], []⟩ true).1.users = [] ∧
      (endDayOp ⟨[⟨1, "A", 3, 1, some 5⟩],
        [⟨"g2", "Individual", "1 week", false, [], [], true, 8, 0⟩], []⟩ true).1.games = []) ∧
    ((checkGameEndOp c8State 9).1.users = c8State.users ∧
      (checkGameEndOp c8State 9).1.games.length = c8State.games.length ∧
      ∃ g2 ∈ (checkGameEndOp c8State 9).1.games, g2.active = false ∧ g2.id = "g1") :=
  ⟨C6_end_wipe_except_scheduler.1 c8State rfl,
   C6_end_wipe_except_scheduler.2.1
     ⟨[⟨1, "A", 3, 1, some 5⟩], [⟨"g2", "Individual", "1 week", false, [], [], true, 8, 0⟩], []⟩
     ⟨"g2", "Individual", "1 week", false, [], [], true, 8, 0⟩ 7 rfl rfl (by decide),
   C6_end_wipe_except_scheduler.2.2 c8State
     ⟨"g1", "Individual", "1 week", false, [], [], true, 1, 0⟩ 9 rfl rfl⟩

/-! ### Claim C8: the scheduled job and the day counter -/

/-- C8 counterexample: on day 1 of a fresh one-week game the scheduled
job leaves the day counter at 1 and only sends the daily summary, while
an admin end-day on the same store advances the counter to 2 — so the
scheduled job does not invoke the day-advance operation. -/
theorem C8_counterexample :
    (checkGameEndOp c8State 0).1.games.map (fun g => g.day) = [1] ∧
    (endDayOp c8State true).1.games.map (fun g => g.day) = [2] ∧
    (checkGameEndOp c8State 0).2 = Reply.dailySummarySent :=
  ⟨rfl, rfl, rfl⟩

/-- C8 amended: the scheduler's daily job never advances the day
counter: it leaves every user document, the session, and every game
field except the active flag unchanged (it compares wall-clock days
elapsed since the start date against the threshold and at most clears
the active flag); only the admin end-day increments the counter. -/
theorem C8_scheduler_no_day_advance :
    ∀ (s : Sys) (now : Int),
      (checkGameEndOp s now).1.users = s.users ∧
      (checkGameEndOp s now).1.sessions = s.sessions ∧
      (checkGameEndOp s now).1.games.map
          (fun g => (g.id, g.mode, g.duration, g.penalties, g.team_1, g.team_2, g.day,
            g.start_date)) =
        s.games.map
          (fun g => (g.id, g.mode, g.duration, g.penalties, g.team_1, g.team_2, g.day,
            g.start_date)) := by
  intro s now
  unfold checkGameEndOp
  cases hfa : firstActive s.games with
  | none => exact ⟨rfl, rfl, rfl⟩
  | some g =>
    dsimp only
    by_cases hex : expiryReached g.duration (now - g.start_date) = true
    · rw [if_pos hex]
      refine ⟨rfl, rfl, ?_⟩
      exact map_updateFirst (fun h2 => h2.id == g.id) (fun h2 => { h2 with active := false })
        (fun g2 => (g2.id, g2.mode, g2.duration, g2.penalties, g2.team_1, g2.team_2, g2.day,
          g2.start_date)) (fun x => rfl) s.games
    · rw [if_neg hex]
      exact ⟨rfl, rfl, rfl⟩

/-! ### Claim C9: team balancing on join -/

/-- C9: a join in Team mode extends exactly one roster by exactly the
new display name: always the strictly smaller roster when sizes differ,
and the roster chosen by the coin flip when sizes are equal. -/
theorem C9_team_balance :
    ∀ (s : Sys) (g : Game) (uid : Nat) (dn : String) (coin : Bool),
      findUser s.users uid = none →
      firstActive s.games = some g →
      g.mode = "Team" →
      (s.games.map Game.id).Nodup →
      ∃ g2, firstActive (joinOp s uid dn coin).1.games = some g2 ∧
        ((g2.team_1 = g.team_1 ++ [dn] ∧ g2.team_2 = g.team_2) ∨
         (g2.team_1 = g.team_1 ∧ g2.team_2 = g.team_2 ++ [dn])) ∧
        (g.team_1.length < g.team_2.length →
          g2.team_1 = g.team_1 ++ [dn] ∧ g2.team_2 = g.team_2) ∧
        (g.team_2.length < g.team_1.length →
          g2.team_1 = g.team_1 ∧ g2.team_2 = g.team_2 ++ [dn]) ∧
        (g.team_1.length = g.team_2.length →
          ((coin = true → g2.team_1 = g.team_1 ++ [dn] ∧ g2.team_2 = g.team_2) ∧
           (coin = false → g2.team_1 = g.team_1 ∧ g2.team_2 = g.team_2 ++ [dn]))) ∧
        g2.team_1.length + g2.team_2.length = g.team_1.length + g.team_2.length + 1 := by
  intro s g uid dn coin hu hg hm hnd
  unfold joinOp
  rw [hu]
  dsimp only
  rw [hg]
  dsimp only
  rw [if_pos hm]
  by_cases h12 : g.team_1.length < g.team_2.length
  · have hp : pickTeam g.team_1 g.team_2 coin = true := by
      unfold pickTeam
      rw [if_pos h12]
    simp only [hp, Bool.cond_true]
    refine ⟨_, firstActive_updateFirst_id
        (fun h2 => { h2 with team_1 := g.team_1 ++ [dn], team_2 := g.team_2 })
        (fun x => rfl) s.games g hnd hg,
      Or.inl ⟨rfl, rfl⟩, fun _ => ⟨rfl, rfl⟩, fun h => absurd h (by omega),
      fun h => absurd h12 (by omega), ?_⟩
    simp only [List.length_append, List.length_cons, List.length_nil]
    omega
  · by_cases h21 : g.team_2.length < g.team_1.length
    · have hp : pickTeam g.team_1 g.team_2 coin = false := by
        unfold pickTeam
        rw [if_neg h12, if_pos h21]
      simp only [hp, Bool.cond_false]
      refine ⟨_, firstActive_updateFirst_id
          (fun h2 => { h2 with team_1 := g.team_1, team_2 := g.team_2 ++ [dn] })
          (fun x => rfl) s.games g hnd hg,
        Or.inr ⟨rfl, rfl⟩, fun h => absurd h h12, fun _ => ⟨rfl, rfl⟩,
        fun h => absurd h21 (by omega), ?_⟩
      simp only [List.length_append, List.length_cons, List.length_nil]
      omega
    · have hp : pickTeam g.team_1 g.team_2 coin = coin := by
        unfold pickTeam
        rw [if_neg h12, if_neg h21]
      cases coin with
      | true =>
        simp only [hp, Bool.cond_true]
        refine ⟨_, firstActive_updateFirst_id
            (fun h2 => { h2 with team_1 := g.team_1 ++ [dn], team_2 := g.team_2 })
            (fun x => rfl) s.games g hnd hg,
          Or.inl ⟨rfl, rfl⟩, fun h => absurd h h12, fun h => absurd h h21,
          fun _ => ⟨fun _ => ⟨rfl, rfl⟩, fun hc => Bool.noConfusion hc⟩, ?_⟩
        simp only [List.length_append, List.length_cons, List.length_nil]
        omega
      | false =>
        simp only [hp, Bool.cond_false]
        refine ⟨_, firstActive_updateFirst_id
            (fun h2 => { h2 with team_1 := g.team_1, team_2 := g.team_2 ++ [dn] })
            (fun x => rfl) s.games g hnd hg,
          Or.inr ⟨rfl, rfl⟩, fun h => absurd h h12, fun h => absurd h h21,
          fun _ => ⟨fun hc => Bool.noConfusion hc, fun _ => ⟨rfl, rfl⟩⟩, ?_⟩
        simp only [List.length_append, List.length_cons, List.length_nil]
        omega

/-- Witness for C9: joining a Team game whose roster A already holds one
member and roster B is empty. -/
theorem C9_team_balance_witness :
    ∃ g2, firstActive (joinOp ⟨[], [⟨"g1", "Team", "1 week", false, ["X"], [], true, 1, 0⟩], []⟩
        2 "Y" true).1.games = some g2 ∧
      ((g2.team_1 = ["X"] ++ ["Y"] ∧ g2.team_2 = []) ∨
       (g2.team_1 = ["X"] ∧ g2.team_2 = [] ++ ["Y"])) ∧
      ((["X"] : List String).length < ([] : List String).length →
        g2.team_1 = ["X"] ++ ["Y"] ∧ g2.team_2 = []) ∧
      (([] : List String).length < (["X"] : List String).length →
        g2.team_1 = ["X"] ∧ g2.team_2 = [] ++ ["Y"]) ∧
      ((["X"] : List String).length = ([] : List String).length →
        ((true = true → g2.team_1 = ["X"] ++ ["Y"] ∧ g2.team_2 = []) ∧
         (true = false → g2.team_1 = ["X"] ∧ g2.team_2 = [] ++ ["Y"]))) ∧
      g2.team_1.length + g2.team_2.length =
        (["X"] : List String).length + ([] : List String).length + 1 :=
  C9_team_balance ⟨[], [⟨"g1", "Team", "1 week", false, ["X"], [], true, 1, 0⟩], []⟩
    ⟨"g1", "Team", "1 week", false, ["X"], [], true, 1, 0⟩ 2 "Y" true rfl rfl rfl (by decide)

end GymGame
